import Mathlib

/-!
# Game Data Service

A shallow embedding of `src/index.js` (an Express application backed by a
single `mysql2` connection) and the properties of its request handlers.

The handlers are written in continuation style in the source: `db.query`
receives the statement text, optionally a list of bound values, and a callback
that the driver invokes later with either an error or a result.  The embedding
keeps that shape: a handler returns the list of `db.query` calls it made, each
carrying its callback, and `run` plays the driver.

The test suite addresses a module `app` (root route, `/game-data` prefix,
`GET /game/:id`) that is not among the sources; what it needs is modelled from
the specification in its own section and marked as such.
-/

namespace GameDataService

/-! ## Values -/

/-- JSON values as they travel through `express.json()` and `res.json`.
A number is kept as a decimal `mantissa * 10 ^ (-exponent)`. -/
inductive Json where
  | null
  | bool (b : Bool)
  | num (mantissa : Int) (exponent : Nat)
  | str (s : String)
  | arr (items : List Json)
  | obj (fields : List (String × Json))

/-- A JavaScript value that may be `undefined` (`none`). -/
abbrev Val := Option Json

/-- The value of `req.body` after `express.json()` (line 4): under the parser's
default strict mode it is an object or an array. -/
inductive Body where
  | object (fields : List (String × Json))
  | array (items : List Json)

/-- Property read `body[key]` for a key that is neither an array index nor
`length`: an object yields the value stored under the key, or `undefined`;
an array has no such property. -/
def Body.prop : Body → String → Val
  | .object fields, key => fields.lookup key
  | .array _, _ => none

/-! ## Configuration (lines 6-11) -/

/-- The process environment `process.env`: a variable is unset (`none`) or
holds a string. -/
abbrev Env := String → Option String

/-- JavaScript `a || b` where `a` is a string or `undefined` and `b` a string:
`undefined` and the empty string are falsy. -/
def orDefault (a : Option String) (b : String) : String :=
  match a with
  | none => b
  | some s => if s = "" then b else s

/-- The options object passed to `mysql.createConnection`. -/
structure ConnectionConfig where
  host : String
  user : String
  password : String
  database : String
deriving DecidableEq, Repr

/-- The argument of `mysql.createConnection` at lines 6-11. -/
def connectionConfig (env : Env) : ConnectionConfig where
  host := orDefault (env "MYSQL_HOST") "localhost"
  user := orDefault (env "MYSQL_USER") "root"
  password := orDefault (env "MYSQL_PASSWORD") ""
  database := orDefault (env "MYSQL_DATABASE") "gamedb"

/-- An environment with the host set, the user set to the empty string and
the other two variables unset. -/
def sampleEnv : Env := fun name =>
  if name = "MYSQL_HOST" then some "db.internal"
  else if name = "MYSQL_USER" then some ""
  else none

/-! ## Requests and responses -/

/-- An incoming request: verb, path, route parameters, parsed body. -/
structure Request where
  method : String
  path : String
  params : List (String × String)
  body : Body

/-- What a response carries: a JSON document (`res.json`) or text (`res.send`). -/
inductive Payload where
  | json (v : Json)
  | text (s : String)

/-- One response written to the client. -/
structure Reply where
  status : Nat
  body : Payload

/-- The Express response object: the status code set so far and every reply
written through it, oldest first. -/
structure Res where
  statusCode : Nat
  sent : List Reply

/-- A response object as Express hands it to a handler: status 200, nothing
written. -/
def Res.fresh : Res := ⟨200, []⟩

/-- Express `res.status(code)`. -/
def Res.status (res : Res) (code : Nat) : Res :=
  { res with statusCode := code }

/-- Express `res.json(value)`: writes the value with the current status. -/
def Res.json (res : Res) (v : Json) : Res :=
  { res with sent := res.sent ++ [⟨res.statusCode, .json v⟩] }

/-! ## The database driver -/

/-- The error object of the driver; only `message` is read. -/
structure DbError where
  message : String

/-- What the driver passes to a query callback: `cb(err)` or
`cb(null, results)`. -/
inductive DbReply where
  | failure (err : DbError)
  | success (results : Json)

/-- The statement given to `db.query`: its text and, when the call has one,
the list of bound values. -/
structure Query where
  sql : String
  values : Option (List Val)

/-- One `db.query(sql, [values,] callback)` call. -/
structure DbCall where
  query : Query
  callback : DbReply → Res → Res

/-- What a handler has done when it returns: the response object and the
`db.query` calls it made, in order. -/
structure Effect where
  res : Res
  calls : List DbCall

/-- A route handler `(req, res) => ...`. -/
abbrev Handler := Request → Res → Effect

/-- A database: the reply the driver gives for a statement. -/
abbrev Db := Query → DbReply

/-- The outcome of serving a request: statements issued and the response. -/
structure Outcome where
  issued : List Query
  res : Res

/-- The driver answers every pending call, in order, through its callback. -/
def settle (db : Db) : List DbCall → Res → Res
  | [], res => res
  | c :: cs, res => settle db cs (c.callback (db c.query) res)

/-- Runs a handler on a fresh response object against a database. -/
def run (db : Db) (h : Handler) (req : Request) : Outcome :=
  let e := h req Res.fresh
  ⟨e.calls.map DbCall.query, settle db e.calls e.res⟩

/-! ## Handlers of `src/index.js` -/

/-- The statement text at line 18. -/
def insertSql : String :=
  "INSERT INTO games (name, category, released_date, price, image_url) VALUES (?, ?, ?, ?, ?)"

/-- The statement text at line 28. -/
def selectAllSql : String := "SELECT * FROM games"

/-- The callback at lines 20-23. -/
def postGamesCallback : DbReply → Res → Res
  | .failure err, res => (res.status 500).json (.obj [("error", .str err.message)])
  | .success _, res => (res.status 201).json (.obj [("message", .str "Game added")])

/-- The handler `app.post('/games', ...)` at lines 15-25. -/
def postGames : Handler := fun req res =>
  let name := req.body.prop "name"
  let category := req.body.prop "category"
  let released_date := req.body.prop "released_date"
  let price := req.body.prop "price"
  let image_url := req.body.prop "image_url"
  ⟨res, [⟨⟨insertSql, some [name, category, released_date, price, image_url]⟩,
          postGamesCallback⟩]⟩

/-- The callback at lines 28-31. -/
def getGamesCallback : DbReply → Res → Res
  | .failure err, res => (res.status 500).json (.obj [("error", .str err.message)])
  | .success results, res => res.json results

/-- The handler `app.get('/games', ...)` at lines 27-32. -/
def getGames : Handler := fun _req res =>
  ⟨res, [⟨⟨selectAllSql, none⟩, getGamesCallback⟩]⟩

/-! ## Routing -/

/-- One registration `app.METHOD(pattern, handler)`. -/
structure Route where
  verb : String
  pattern : String
  handler : Handler

/-- The route matcher of Express: whether a registration with this verb and
pattern takes the request, and with which route parameters (`req.params`). -/
abbrev Matcher := (verb pattern : String) → Request → Option (List (String × String))

/-- Express dispatch over a route table: the first registration that matches
handles the request (no handler here calls `next`); `none` when no
registration matches, in which case no handler of the application runs. -/
def dispatch (m : Matcher) : List Route → Request → Res → Option Effect
  | [], _, _ => none
  | r :: rs, req, res =>
    match m r.verb r.pattern req with
    | some ps => some (r.handler { req with params := ps } res)
    | none => dispatch m rs req res

/-- The registrations of `src/index.js`, in source order (lines 15 and 27). -/
def routes : List Route :=
  [⟨"POST", "/games", postGames⟩, ⟨"GET", "/games", getGames⟩]

/-- The application object of `src/index.js`. -/
def app (m : Matcher) : Request → Res → Option Effect :=
  dispatch m routes

/-- Serves a request through a route table against a database: the
statements issued and the response written by the application's handlers
(`none` when no registration matches). -/
def serve (m : Matcher) (table : List Route) (db : Db) (req : Request) : Option Outcome :=
  (dispatch m table req Res.fresh).map fun e =>
    ⟨e.calls.map DbCall.query, settle db e.calls e.res⟩

/-- The statements a request causes: those of the handler that took it, none
when no registration matches. -/
def issued (m : Matcher) (table : List Route) (req : Request) : List Query :=
  match dispatch m table req Res.fresh with
  | some e => e.calls.map DbCall.query
  | none => []

/-- One step of splitting, reading a character from the right: the pair is the
piece being read and the pieces completed to its right. -/
def splitStep (sep : Char) (c : Char) (st : List Char × List (List Char)) :
    List Char × List (List Char) :=
  if c = sep then ([], if st.1 = [] then st.2 else st.1 :: st.2)
  else (c :: st.1, st.2)

/-- Splits a text at a separator character, dropping empty pieces. -/
def splitAt (sep : Char) (cs : List Char) : List (List Char) :=
  let st := cs.foldr (splitStep sep) ([], [])
  if st.1 = [] then st.2 else st.1 :: st.2

/-- Splits a path at `/`, dropping empty segments. -/
def splitPath (cs : List Char) : List (List Char) := splitAt '/' cs

/-- Matches pattern segments against path segments: a segment `:name` binds
the path segment under `name`, any other segment must agree up to letter
case. -/
def matchSegments : List (List Char) → List (List Char) → Option (List (String × String))
  | [], [] => some []
  | (':' :: name) :: ps, s :: ss =>
    (matchSegments ps ss).map fun bound => (String.mk name, String.mk s) :: bound
  | p :: ps, s :: ss =>
    if p.map Char.toLower = s.map Char.toLower then matchSegments ps ss else none
  | _, _ => none

/-- A matcher in the manner of Express for literal and `:name` segments:
the verbs agree (a `GET` registration also takes `HEAD`) and the path has the
pattern's segments. -/
def matchRoute (verb pattern method path : String) : Option (List (String × String)) :=
  if verb = method ∨ (verb = "GET" ∧ method = "HEAD") then
    matchSegments (splitPath pattern.data) (splitPath path.data)
  else none

/-- The matcher `matchRoute` applied to a request's verb and path. -/
def expressMatch : Matcher := fun verb pattern req =>
  matchRoute verb pattern req.method req.path

/-! ## The `app` module of the test suite -/

/-- Express `res.send(text)`: writes the text with the current status. -/
def Res.send (res : Res) (s : String) : Res :=
  { res with sent := res.sent ++ [⟨res.statusCode, .text s⟩] }

/-- Modelled from the spec: the welcome text of the root route; the module
`app` required by the tests is not among the sources. The tests match the
response against `Welcome to the Game Data Service`. -/
def welcomeText : String := "Welcome to the Game Data Service"

/-- Modelled from the spec: the handler of `GET /` in the missing `app`
module, which answers 200 with the welcome text and has no failure path. -/
def getRoot : Handler := fun _req res =>
  ⟨res.send welcomeText, []⟩

/-- Modelled from the spec: the statement text of Get Game by Id in the
missing `app` module, the path parameter placed directly in the text. -/
def selectByIdSql (id : String) : String :=
  "SELECT * FROM games WHERE id = " ++ id

/-- Modelled from the spec: the handler of `GET /game/:id` in the missing
`app` module. The statement carries no bound values; rows go back with
status 200, an error with status 500 and its message. -/
def getGameById : Handler := fun req res =>
  let id := (req.params.lookup "id").getD "undefined"
  ⟨res, [⟨⟨selectByIdSql id, none⟩, getGamesCallback⟩]⟩

/-- Modelled from the spec: the routing prefix under which the missing `app`
module mounts its routes, as the tests address them. -/
def routePrefix : String := "/game-data"

/-- Modelled from the spec: the route table of the missing `app` module, the
four operations of the HTTP surface under the routing prefix. Create Game and
List Games are the handlers of `src/index.js`. -/
def mountedRoutes : List Route :=
  [⟨"GET", routePrefix ++ "/", getRoot⟩,
   ⟨"POST", routePrefix ++ "/games", postGames⟩,
   ⟨"GET", routePrefix ++ "/games", getGames⟩,
   ⟨"GET", routePrefix ++ "/game/:id", getGameById⟩]


/-! ## Reading statements -/

/-- The leading keyword of a statement: its text up to the first blank. -/
def sqlVerb (sql : String) : String :=
  String.mk (sql.data.takeWhile fun c => c ≠ ' ')

/-- The word after the first `INTO` or `FROM` among the words of a statement. -/
def targetOf : List (List Char) → Option String
  | [] => none
  | w :: ws =>
    if w = "INTO".data ∨ w = "FROM".data then ws.head?.map String.mk else targetOf ws

/-- The table a statement writes into or reads from: the word that follows its
first `INTO` or `FROM`. -/
def sqlTable (sql : String) : Option String :=
  targetOf (splitAt ' ' sql.data)

/-- The text `t` occurs in `s` as a contiguous run of characters. -/
def occursIn (t s : String) : Prop := t.data <:+: s.data

instance (t s : String) : Decidable (occursIn t s) :=
  inferInstanceAs (Decidable (t.data <:+: s.data))

/-! ## Lemmas on the driver and the handlers -/

theorem settle_single (db : Db) (c : DbCall) (res : Res) :
    settle db [c] res = c.callback (db c.query) res := rfl

theorem run_postGames (db : Db) (req : Request) :
    run db postGames req =
      ⟨[⟨insertSql, some [req.body.prop "name", req.body.prop "category",
          req.body.prop "released_date", req.body.prop "price",
          req.body.prop "image_url"]⟩],
       postGamesCallback
         (db ⟨insertSql, some [req.body.prop "name", req.body.prop "category",
          req.body.prop "released_date", req.body.prop "price",
          req.body.prop "image_url"]⟩) Res.fresh⟩ := rfl

theorem run_getGames (db : Db) (req : Request) :
    run db getGames req =
      ⟨[⟨selectAllSql, none⟩], getGamesCallback (db ⟨selectAllSql, none⟩) Res.fresh⟩ := rfl

theorem lookup_absent {β : Type} (fields : List (String × β)) (key : String)
    (h : ∀ v, (key, v) ∉ fields) : fields.lookup key = none := by
  induction fields with
  | nil => rfl
  | cons f fs ih =>
    obtain ⟨k, v⟩ := f
    have hk : key ≠ k := by
      intro e
      exact h v (by simp [e])
    have hrest : ∀ w, (key, w) ∉ fs := fun w hw => h w (List.mem_cons_of_mem _ hw)
    have hb : (key == k) = false := by simpa using hk
    rw [List.lookup_cons, hb]
    exact ih hrest

/-! ## Create Game and List Games (`src/index.js`) -/

/-- C1: for every request body, Create Game issues exactly one statement, the
five-placeholder `INSERT INTO games`, with the body's `name`, `category`,
`released_date`, `price`, `image_url` bound in that order; a key the body does
not have is bound as `undefined`; the statement is the same whatever the
database replies. -/
theorem postGames_issues_one_insert (db db2 : Db) (req : Request) :
    (run db postGames req).issued =
        [⟨insertSql, some [req.body.prop "name", req.body.prop "category",
          req.body.prop "released_date", req.body.prop "price",
          req.body.prop "image_url"]⟩]
    ∧ insertSql =
        "INSERT INTO games (name, category, released_date, price, image_url) VALUES (?, ?, ?, ?, ?)"
    ∧ insertSql.data.count '?' = 5
    ∧ sqlVerb insertSql = "INSERT"
    ∧ (∀ fields key, req.body = .object fields → (∀ v, (key, v) ∉ fields) →
        req.body.prop key = none)
    ∧ (∀ items key, req.body = .array items → req.body.prop key = none)
    ∧ (run db2 postGames req).issued = (run db postGames req).issued := by
  refine ⟨rfl, rfl, by decide, by decide, ?_, ?_, rfl⟩
  · intro fields key hb habsent
    rw [hb]
    exact lookup_absent fields key habsent
  · intro items key hb
    rw [hb]
    rfl

/-- Witness of C1: a body with only `name` set, and an array body. -/
theorem postGames_issues_one_insert_witness :
    (run (fun _ => .success .null) postGames
        ⟨"POST", "/games", [], .object [("name", .str "Chess")]⟩).issued =
      [⟨insertSql, some [some (.str "Chess"), none, none, none, none]⟩]
    ∧ (Body.object [("name", .str "Chess")]).prop "price" = none
    ∧ (Body.array [.str "Chess"]).prop "name" = none :=
  ⟨(postGames_issues_one_insert (fun _ => .success .null) (fun _ => .failure ⟨"down"⟩)
      ⟨"POST", "/games", [], .object [("name", .str "Chess")]⟩).1,
   (postGames_issues_one_insert (fun _ => .success .null) (fun _ => .failure ⟨"down"⟩)
      ⟨"POST", "/games", [], .object [("name", .str "Chess")]⟩).2.2.2.2.1
      [("name", .str "Chess")] "price" rfl (by simp),
   (postGames_issues_one_insert (fun _ => .success .null) (fun _ => .failure ⟨"down"⟩)
      ⟨"POST", "/games", [], .array [.str "Chess"]⟩).2.2.2.2.2.1
      [.str "Chess"] "name" rfl⟩

/-- C2: for every request body, when the database reports success for the
insert, with whatever result, Create Game writes one response: status 201 and
the body `{"message":"Game added"}`, which holds nothing of the result or of
the request. -/
theorem postGames_success_reply (db : Db) (req : Request)
    (hdb : ∀ q ∈ (run db postGames req).issued, ∃ r, db q = .success r) :
    (run db postGames req).res.sent =
      [⟨201, .json (.obj [("message", .str "Game added")])⟩] := by
  rw [run_postGames] at hdb ⊢
  obtain ⟨r, hr⟩ := hdb _ (List.mem_singleton.mpr rfl)
  simp only [hr]
  rfl

/-- Witness of C2: the insert returns a result header with a generated id. -/
theorem postGames_success_reply_witness :
    (run (fun _ => .success (.obj [("affectedRows", .num 1 0), ("insertId", .num 7 0)]))
        postGames ⟨"POST", "/games", [], .object [("name", .str "Chess")]⟩).res.sent =
      [⟨201, .json (.obj [("message", .str "Game added")])⟩] :=
  postGames_success_reply _ _ (fun _ _ => ⟨_, rfl⟩)

/-- C3: for every row sequence the database returns for List Games, the
handler writes one response: status 200 and a body that is that sequence, same
rows in the same order. -/
theorem getGames_returns_rows (db : Db) (req : Request) (rows : List Json)
    (hdb : ∀ q ∈ (run db getGames req).issued, db q = .success (.arr rows)) :
    (run db getGames req).res.sent = [⟨200, .json (.arr rows)⟩] := by
  rw [run_getGames] at hdb ⊢
  have hr := hdb _ (List.mem_singleton.mpr rfl)
  simp only [hr]
  rfl

/-- Witness of C3: the empty table. -/
theorem getGames_returns_rows_witness :
    (run (fun _ => .success (.arr [])) getGames
        ⟨"GET", "/games", [], .object []⟩).res.sent = [⟨200, .json (.arr [])⟩] :=
  getGames_returns_rows _ _ [] (fun _ _ => rfl)

/-- C4: for Create Game and for List Games, when the database reports an
error with message `M` the handler writes exactly one response, status 500
with body `{"error": M}`; no 201 or 200 response is written. -/
theorem db_error_reply (db : Db) (req : Request) (M : String) :
    ((∀ q ∈ (run db postGames req).issued, db q = .failure ⟨M⟩) →
      (run db postGames req).res.sent = [⟨500, .json (.obj [("error", .str M)])⟩])
    ∧ ((∀ q ∈ (run db getGames req).issued, db q = .failure ⟨M⟩) →
      (run db getGames req).res.sent = [⟨500, .json (.obj [("error", .str M)])⟩]) := by
  constructor
  · intro hdb
    rw [run_postGames] at hdb ⊢
    have hr := hdb _ (List.mem_singleton.mpr rfl)
    simp only [hr]
    rfl
  · intro hdb
    rw [run_getGames] at hdb ⊢
    have hr := hdb _ (List.mem_singleton.mpr rfl)
    simp only [hr]
    rfl

/-- Witness of C4: the driver fails every statement with `insert failed`. -/
theorem db_error_reply_witness :
    (run (fun _ => .failure ⟨"insert failed"⟩) postGames
        ⟨"POST", "/games", [], .object [("name", .str "Bad Game")]⟩).res.sent =
      [⟨500, .json (.obj [("error", .str "insert failed")])⟩]
    ∧ (run (fun _ => .failure ⟨"insert failed"⟩) getGames
        ⟨"POST", "/games", [], .object [("name", .str "Bad Game")]⟩).res.sent =
      [⟨500, .json (.obj [("error", .str "insert failed")])⟩] :=
  ⟨(db_error_reply _ _ "insert failed").1 (fun _ _ => rfl),
   (db_error_reply _ _ "insert failed").2 (fun _ _ => rfl)⟩


/-! ## The whole application of `src/index.js` -/

theorem issued_routes (m : Matcher) (req : Request) :
    issued m routes req = [] ∨
    (∃ ps, issued m routes req = (run (fun _ => .success .null) postGames
        { req with params := ps }).issued) ∨
    issued m routes req = [⟨selectAllSql, none⟩] := by
  unfold issued routes
  simp only [dispatch]
  cases h1 : m "POST" "/games" req with
  | some ps => exact Or.inr (Or.inl ⟨ps, rfl⟩)
  | none =>
    cases h2 : m "GET" "/games" req with
    | some ps => exact Or.inr (Or.inr rfl)
    | none => exact Or.inl rfl

theorem insertSql_reading :
    sqlVerb insertSql = "INSERT" ∧ sqlVerb insertSql ≠ "UPDATE"
    ∧ sqlVerb insertSql ≠ "DELETE" ∧ sqlTable insertSql = some "games" := by
  decide

theorem selectAllSql_reading :
    sqlVerb selectAllSql = "SELECT" ∧ sqlVerb selectAllSql ≠ "UPDATE"
    ∧ sqlVerb selectAllSql ≠ "DELETE" ∧ sqlTable selectAllSql = some "games" := by
  decide

/-- C9: for every request, whatever its verb, path and body and however the
router matches, the application issues at most one statement, and a statement
it issues is the `INSERT INTO games` or the `SELECT * FROM games`: its keyword
is `INSERT` or `SELECT`, never `UPDATE` or `DELETE`, and its table is `games`. -/
theorem at_most_one_statement (m : Matcher) (req : Request) :
    (issued m routes req).length ≤ 1
    ∧ ∀ q ∈ issued m routes req,
        (q.sql = insertSql ∨ q.sql = selectAllSql)
        ∧ (sqlVerb q.sql = "INSERT" ∨ sqlVerb q.sql = "SELECT")
        ∧ sqlVerb q.sql ≠ "UPDATE" ∧ sqlVerb q.sql ≠ "DELETE"
        ∧ sqlTable q.sql = some "games" := by
  rcases issued_routes m req with h | ⟨ps, h⟩ | h
  · rw [h]
    exact ⟨by simp, by simp⟩
  · rw [h, run_postGames]
    refine ⟨by simp, ?_⟩
    intro q hq
    rw [List.mem_singleton.mp hq]
    exact ⟨Or.inl rfl, Or.inl insertSql_reading.1, insertSql_reading.2.1,
      insertSql_reading.2.2.1, insertSql_reading.2.2.2⟩
  · rw [h]
    refine ⟨by simp, ?_⟩
    intro q hq
    rw [List.mem_singleton.mp hq]
    exact ⟨Or.inr rfl, Or.inr selectAllSql_reading.1, selectAllSql_reading.2.1,
      selectAllSql_reading.2.2.1, selectAllSql_reading.2.2.2⟩

/-- Witness of C9: `POST /games` with an empty object. -/
theorem at_most_one_statement_witness :
    (issued expressMatch routes ⟨"POST", "/games", [], .object []⟩).length ≤ 1
    ∧ sqlVerb insertSql ≠ "DELETE" ∧ sqlTable insertSql = some "games" :=
  ⟨(at_most_one_statement expressMatch ⟨"POST", "/games", [], .object []⟩).1,
   ((at_most_one_statement expressMatch ⟨"POST", "/games", [], .object []⟩).2
      ⟨insertSql, some [none, none, none, none, none]⟩
      (List.mem_singleton.mpr rfl)).2.2.2.1,
   ((at_most_one_statement expressMatch ⟨"POST", "/games", [], .object []⟩).2
      ⟨insertSql, some [none, none, none, none, none]⟩
      (List.mem_singleton.mpr rfl)).2.2.2.2⟩

/-! ## Connection settings -/

/-- C10: for every environment, each connection setting is the value of its
variable when that variable holds a non-empty string and its default
otherwise (`localhost`, `root`, the empty string, `gamedb`), an empty
variable included; each setting is determined by its own variable. -/
theorem connectionConfig_settings (env other : Env) :
    ((∀ s, env "MYSQL_HOST" = some s → s ≠ "" → (connectionConfig env).host = s)
      ∧ (env "MYSQL_HOST" = none ∨ env "MYSQL_HOST" = some "" →
          (connectionConfig env).host = "localhost")
      ∧ (other "MYSQL_HOST" = env "MYSQL_HOST" →
          (connectionConfig other).host = (connectionConfig env).host))
    ∧ ((∀ s, env "MYSQL_USER" = some s → s ≠ "" → (connectionConfig env).user = s)
      ∧ (env "MYSQL_USER" = none ∨ env "MYSQL_USER" = some "" →
          (connectionConfig env).user = "root")
      ∧ (other "MYSQL_USER" = env "MYSQL_USER" →
          (connectionConfig other).user = (connectionConfig env).user))
    ∧ ((∀ s, env "MYSQL_PASSWORD" = some s → s ≠ "" → (connectionConfig env).password = s)
      ∧ (env "MYSQL_PASSWORD" = none ∨ env "MYSQL_PASSWORD" = some "" →
          (connectionConfig env).password = "")
      ∧ (other "MYSQL_PASSWORD" = env "MYSQL_PASSWORD" →
          (connectionConfig other).password = (connectionConfig env).password))
    ∧ ((∀ s, env "MYSQL_DATABASE" = some s → s ≠ "" → (connectionConfig env).database = s)
      ∧ (env "MYSQL_DATABASE" = none ∨ env "MYSQL_DATABASE" = some "" →
          (connectionConfig env).database = "gamedb")
      ∧ (other "MYSQL_DATABASE" = env "MYSQL_DATABASE" →
          (connectionConfig other).database = (connectionConfig env).database)) := by
  refine ⟨⟨?_, ?_, ?_⟩, ⟨?_, ?_, ?_⟩, ⟨?_, ?_, ?_⟩, ⟨?_, ?_, ?_⟩⟩
  all_goals first
    | (intro s hs hne; simp [connectionConfig, orDefault, hs, hne])
    | (intro h; rcases h with h | h <;> simp [connectionConfig, orDefault, h])
    | (intro h; simp [connectionConfig, h])

/-- Witness of C10: a set host is used, an empty user and an unset database
fall back to their defaults. -/
theorem connectionConfig_settings_witness :
    (connectionConfig sampleEnv).host = "db.internal"
    ∧ (connectionConfig sampleEnv).user = "root"
    ∧ (connectionConfig sampleEnv).database = "gamedb"
    ∧ (connectionConfig sampleEnv).password = (connectionConfig sampleEnv).password :=
  ⟨(connectionConfig_settings sampleEnv sampleEnv).1.1 "db.internal" rfl (by decide),
   (connectionConfig_settings sampleEnv sampleEnv).2.1.2.1 (Or.inr rfl),
   (connectionConfig_settings sampleEnv sampleEnv).2.2.2.2.1 (Or.inl rfl),
   (connectionConfig_settings sampleEnv sampleEnv).2.2.1.2.2 rfl⟩


/-! ## Lemmas on paths -/

theorem foldr_splitStep_plain (sep : Char) (cs : List Char) (h : sep ∉ cs)
    (st : List Char × List (List Char)) :
    cs.foldr (splitStep sep) st = (cs ++ st.1, st.2) := by
  induction cs with
  | nil => rfl
  | cons c cs ih =>
    have hc : c ≠ sep := fun e => h (by simp [e])
    have hcs : sep ∉ cs := fun hm => h (List.mem_cons_of_mem _ hm)
    simp [List.foldr_cons, ih hcs, splitStep, hc]

theorem splitPath_game (X : String) (hX : X.data ≠ []) (hs : '/' ∉ X.data) :
    splitPath ("/game-data/game/" ++ X).data =
      ["game-data".data, "game".data, X.data] := by
  have hfold := foldr_splitStep_plain '/' X.data hs ([], [])
  simp only [List.append_nil] at hfold
  rw [splitPath, splitAt, String.data_append, List.foldr_append, hfold]
  simp [splitStep, hX]

theorem matchSegments_byId (x : List Char) :
    matchSegments ["game-data".data] ["game-data".data, "game".data, x] = none
    ∧ matchSegments ["game-data".data, "games".data] ["game-data".data, "game".data, x] = none
    ∧ matchSegments ["game-data".data, "game".data, ':' :: "id".data]
        ["game-data".data, "game".data, x] = some [("id", String.mk x)] :=
  ⟨rfl, rfl, rfl⟩

theorem matchRoute_byId (X : String) (hX : X.data ≠ []) (hs : '/' ∉ X.data) :
    matchRoute "GET" "/game-data/" "GET" ("/game-data/game/" ++ X) = none
    ∧ matchRoute "POST" "/game-data/games" "GET" ("/game-data/game/" ++ X) = none
    ∧ matchRoute "GET" "/game-data/games" "GET" ("/game-data/game/" ++ X) = none
    ∧ matchRoute "GET" "/game-data/game/:id" "GET" ("/game-data/game/" ++ X)
        = some [("id", X)] := by
  have hp := splitPath_game X hX hs
  have p1 : splitPath "/game-data/".data = ["game-data".data] := by decide
  have p3 : splitPath "/game-data/games".data = ["game-data".data, "games".data] := by decide
  have p4 : splitPath "/game-data/game/:id".data =
      ["game-data".data, "game".data, ':' :: "id".data] := by decide
  have hm := matchSegments_byId X.data
  have hv : ("GET" = "GET" ∨ "GET" = "GET" ∧ "GET" = "HEAD") := Or.inl rfl
  have hv2 : ¬ ("POST" = "GET" ∨ "POST" = "GET" ∧ "GET" = "HEAD") := by decide
  refine ⟨?_, ?_, ?_, ?_⟩
  · rw [matchRoute, if_pos hv, hp, p1]
    exact hm.1
  · rw [matchRoute, if_neg hv2]
  · rw [matchRoute, if_pos hv, hp, p3]
    exact hm.2.1
  · rw [matchRoute, if_pos hv, hp, p4]
    exact hm.2.2


theorem mounted_patterns :
    routePrefix ++ "/" = "/game-data/"
    ∧ routePrefix ++ "/games" = "/game-data/games"
    ∧ routePrefix ++ "/game/:id" = "/game-data/game/:id" := by
  decide

theorem dispatch_byId (X : String) (hX : X.data ≠ []) (hs : '/' ∉ X.data)
    (body : Body) (res : Res) :
    dispatch expressMatch mountedRoutes ⟨"GET", "/game-data/game/" ++ X, [], body⟩ res =
      some (getGameById ⟨"GET", "/game-data/game/" ++ X, [("id", X)], body⟩ res) := by
  obtain ⟨m1, m2, m3, m4⟩ := matchRoute_byId X hX hs
  simp only [mountedRoutes, mounted_patterns.1, mounted_patterns.2.1, mounted_patterns.2.2,
    dispatch, expressMatch, m1, m2, m3, m4]

theorem run_getGameById (db : Db) (req : Request) (X : String)
    (hid : req.params.lookup "id" = some X) :
    run db getGameById req =
      ⟨[⟨selectByIdSql X, none⟩],
       getGamesCallback (db ⟨selectByIdSql X, none⟩) Res.fresh⟩ := by
  simp [run, getGameById, hid, settle]

theorem selectByIdSql_injective (X Y : String) (h : selectByIdSql X = selectByIdSql Y) :
    X = Y := by
  have hd := congrArg String.data h
  simp only [selectByIdSql, String.data_append] at hd
  exact String.ext (List.append_cancel_left hd)

/-! ## Get Game by Id -/

/-- C5: the application answers `GET /game/:id`, mounted under the routing
prefix: for every identifier `X` in the path, rows returned by the database
go back with status 200 as the body, the empty sequence included, and a
database error with message `M` goes back with status 500 and body
`{"error": M}`. The same holds of the handler for every request whose `id`
parameter is `X`. -/
theorem getGameById_replies (db : Db) (X : String) (hX : X.data ≠ []) (hs : '/' ∉ X.data)
    (body : Body) (req : Request) (hid : req.params.lookup "id" = some X) :
    (∀ rows, db ⟨selectByIdSql X, none⟩ = .success (.arr rows) →
      serve expressMatch mountedRoutes db ⟨"GET", "/game-data/game/" ++ X, [], body⟩ =
          some ⟨[⟨selectByIdSql X, none⟩], ⟨200, [⟨200, .json (.arr rows)⟩]⟩⟩
      ∧ (run db getGameById req).res.sent = [⟨200, .json (.arr rows)⟩])
    ∧ (db ⟨selectByIdSql X, none⟩ = .success (.arr []) →
      (run db getGameById req).res.sent = [⟨200, .json (.arr [])⟩])
    ∧ (∀ M, db ⟨selectByIdSql X, none⟩ = .failure ⟨M⟩ →
      serve expressMatch mountedRoutes db ⟨"GET", "/game-data/game/" ++ X, [], body⟩ =
          some ⟨[⟨selectByIdSql X, none⟩],
            ⟨500, [⟨500, .json (.obj [("error", .str M)])⟩]⟩⟩
      ∧ (run db getGameById req).res.sent = [⟨500, .json (.obj [("error", .str M)])⟩]) := by
  have hserve : serve expressMatch mountedRoutes db ⟨"GET", "/game-data/game/" ++ X, [], body⟩ =
      some (run db getGameById ⟨"GET", "/game-data/game/" ++ X, [("id", X)], body⟩) := by
    rw [serve, dispatch_byId X hX hs]
    rfl
  have hrun := run_getGameById db ⟨"GET", "/game-data/game/" ++ X, [("id", X)], body⟩ X
    (by simp [List.lookup])
  rw [hserve, hrun, run_getGameById db req X hid]
  refine ⟨?_, ?_, ?_⟩
  · intro rows hdb
    rw [hdb]
    exact ⟨rfl, rfl⟩
  · intro hdb
    rw [hdb]
    rfl
  · intro M hdb
    rw [hdb]
    exact ⟨rfl, rfl⟩

/-- Witness of C5: `GET /game-data/game/42` when no row has id 42, and when
the driver fails with `by-id error`. -/
theorem getGameById_replies_witness :
    serve expressMatch mountedRoutes (fun _ => .success (.arr []))
        ⟨"GET", "/game-data/game/" ++ "42", [], .object []⟩ =
      some ⟨[⟨selectByIdSql "42", none⟩], ⟨200, [⟨200, .json (.arr [])⟩]⟩⟩
    ∧ (run (fun _ => .failure ⟨"by-id error"⟩) getGameById
        ⟨"GET", "/game-data/game/1", [("id", "1")], .object []⟩).res.sent =
      [⟨500, .json (.obj [("error", .str "by-id error")])⟩] :=
  ⟨((getGameById_replies (fun _ => .success (.arr [])) "42" (by decide) (by decide)
      (.object []) ⟨"GET", "/game-data/game/42", [("id", "42")], .object []⟩ rfl).1
      [] rfl).1,
   ((getGameById_replies (fun _ => .failure ⟨"by-id error"⟩) "1" (by decide) (by decide)
      (.object []) ⟨"GET", "/game-data/game/1", [("id", "1")], .object []⟩ rfl).2.2
      "by-id error" rfl).2⟩

/-- C6: for every path segment `X`, Get Game by Id issues exactly one
statement, `SELECT * FROM games WHERE id = X` with `X` placed in the text as it
is and no list of bound values; different segments give different texts. -/
theorem getGameById_statement (db : Db) (X : String) (hX : X.data ≠ []) (hs : '/' ∉ X.data)
    (body : Body) (req : Request) (hid : req.params.lookup "id" = some X) :
    issued expressMatch mountedRoutes ⟨"GET", "/game-data/game/" ++ X, [], body⟩ =
        [⟨"SELECT * FROM games WHERE id = " ++ X, none⟩]
    ∧ (run db getGameById req).issued = [⟨"SELECT * FROM games WHERE id = " ++ X, none⟩]
    ∧ occursIn ("WHERE id = " ++ X) (selectByIdSql X)
    ∧ "SELECT * FROM games".data <+: (selectByIdSql X).data
    ∧ sqlVerb (selectByIdSql X) = "SELECT"
    ∧ (∀ Y, Y ≠ X → selectByIdSql Y ≠ selectByIdSql X)
    ∧ occursIn "WHERE id = 42" (selectByIdSql "42") := by
  refine ⟨?_, ?_, ?_, ?_, ?_, ?_, by decide⟩
  · rw [issued, dispatch_byId X hX hs]
    rfl
  · rw [run_getGameById db req X hid]
    rfl
  · refine ⟨"SELECT * FROM games ".data, [], ?_⟩
    simp [selectByIdSql]
  · refine ⟨" WHERE id = ".data ++ X.data, ?_⟩
    simp [selectByIdSql]
  · simp [sqlVerb, selectByIdSql, List.takeWhile]
  · intro Y hne heq
    exact hne (selectByIdSql_injective Y X heq)

/-- Witness of C6: the segment `42`. -/
theorem getGameById_statement_witness :
    issued expressMatch mountedRoutes ⟨"GET", "/game-data/game/" ++ "42", [], .object []⟩ =
        [⟨"SELECT * FROM games WHERE id = " ++ "42", none⟩]
    ∧ selectByIdSql "7" ≠ selectByIdSql "42" :=
  ⟨(getGameById_statement (fun _ => .success (.arr [])) "42" (by decide) (by decide)
      (.object []) ⟨"GET", "/game-data/game/42", [("id", "42")], .object []⟩ rfl).1,
   (getGameById_statement (fun _ => .success (.arr [])) "42" (by decide) (by decide)
      (.object []) ⟨"GET", "/game-data/game/42", [("id", "42")], .object []⟩ rfl).2.2.2.2.2.1
      "7" (by decide)⟩


/-! ## The routing prefix and the root route -/

theorem matchRoute_mounted :
    matchRoute "GET" "/game-data/" "POST" "/game-data/games" = none
    ∧ matchRoute "POST" "/game-data/games" "POST" "/game-data/games" = some []
    ∧ matchRoute "GET" "/game-data/" "GET" "/game-data/games" = none
    ∧ matchRoute "POST" "/game-data/games" "GET" "/game-data/games" = none
    ∧ matchRoute "GET" "/game-data/games" "GET" "/game-data/games" = some []
    ∧ matchRoute "GET" "/game-data/" "GET" "/game-data/" = some [] := by
  decide

theorem dispatch_mounted (body : Body) (res : Res) :
    dispatch expressMatch mountedRoutes ⟨"POST", "/game-data/games", [], body⟩ res =
        some (postGames ⟨"POST", "/game-data/games", [], body⟩ res)
    ∧ dispatch expressMatch mountedRoutes ⟨"GET", "/game-data/games", [], body⟩ res =
        some (getGames ⟨"GET", "/game-data/games", [], body⟩ res)
    ∧ dispatch expressMatch mountedRoutes ⟨"GET", "/game-data/", [], body⟩ res =
        some (getRoot ⟨"GET", "/game-data/", [], body⟩ res) := by
  obtain ⟨m1, m2, m3, m4, m5, m6⟩ := matchRoute_mounted
  refine ⟨?_, ?_, ?_⟩ <;>
    simp only [mountedRoutes, mounted_patterns.1, mounted_patterns.2.1, mounted_patterns.2.2,
      dispatch, expressMatch, m1, m2, m3, m4, m5, m6]

/-- C7: under the `/game-data` prefix, `POST /game-data/games` is handled by
Create Game and `GET /game-data/games` by List Games; against a database that
reports success the first answers 201 with `{"message":"Game added"}` and the
second 200 with the rows returned. -/
theorem mounted_create_and_list (db : Db) (body : Body) (res : Res) :
    dispatch expressMatch mountedRoutes ⟨"POST", "/game-data/games", [], body⟩ res =
        some (postGames ⟨"POST", "/game-data/games", [], body⟩ res)
    ∧ dispatch expressMatch mountedRoutes ⟨"GET", "/game-data/games", [], body⟩ res =
        some (getGames ⟨"GET", "/game-data/games", [], body⟩ res)
    ∧ ((∀ q, ∃ r, db q = .success r) →
        (serve expressMatch mountedRoutes db ⟨"POST", "/game-data/games", [], body⟩).map
            (fun o => o.res) =
          some ⟨201, [⟨201, .json (.obj [("message", .str "Game added")])⟩]⟩)
    ∧ (∀ rows, db ⟨selectAllSql, none⟩ = .success (.arr rows) →
        serve expressMatch mountedRoutes db ⟨"GET", "/game-data/games", [], body⟩ =
          some ⟨[⟨selectAllSql, none⟩], ⟨200, [⟨200, .json (.arr rows)⟩]⟩⟩) := by
  refine ⟨(dispatch_mounted body res).1, (dispatch_mounted body res).2.1, ?_, ?_⟩
  · intro hdb
    rw [serve, (dispatch_mounted body Res.fresh).1]
    obtain ⟨r, hr⟩ := hdb ⟨insertSql, some [body.prop "name", body.prop "category",
      body.prop "released_date", body.prop "price", body.prop "image_url"]⟩
    simp only [Option.map_some', postGames, settle, hr]
    rfl
  · intro rows hdb
    rw [serve, (dispatch_mounted body Res.fresh).2.1]
    simp only [Option.map_some', getGames, settle, List.map, hdb]
    rfl

/-- Witness of C7: the payload and the rows of the test suite's shape. -/
theorem mounted_create_and_list_witness :
    (serve expressMatch mountedRoutes (fun _ => .success (.arr [.obj [("id", .num 1 0)]]))
        ⟨"POST", "/game-data/games", [], .object [("name", .str "A")]⟩).map (fun o => o.res) =
      some ⟨201, [⟨201, .json (.obj [("message", .str "Game added")])⟩]⟩
    ∧ serve expressMatch mountedRoutes (fun _ => .success (.arr [.obj [("id", .num 1 0)]]))
        ⟨"GET", "/game-data/games", [], .object [("name", .str "A")]⟩ =
      some ⟨[⟨selectAllSql, none⟩], ⟨200, [⟨200, .json (.arr [.obj [("id", .num 1 0)]])⟩]⟩⟩ :=
  ⟨(mounted_create_and_list (fun _ => .success (.arr [.obj [("id", .num 1 0)]]))
      (.object [("name", .str "A")]) Res.fresh).2.2.1 (fun _ => ⟨_, rfl⟩),
   (mounted_create_and_list (fun _ => .success (.arr [.obj [("id", .num 1 0)]]))
      (.object [("name", .str "A")]) Res.fresh).2.2.2 _ rfl⟩

/-- C8: a `GET` of the service root (`/game-data/` under the prefix) is
answered with status 200 and a text that contains `Welcome to the Game Data
Service`, also when letter case is ignored; the handler issues no statement
and writes this one response whatever the database would reply. -/
theorem root_welcome (db : Db) (req : Request) (body : Body) :
    run db getRoot req = ⟨[], ⟨200, [⟨200, .text welcomeText⟩]⟩⟩
    ∧ serve expressMatch mountedRoutes db ⟨"GET", "/game-data/", [], body⟩ =
        some ⟨[], ⟨200, [⟨200, .text welcomeText⟩]⟩⟩
    ∧ occursIn "Welcome to the Game Data Service" welcomeText
    ∧ "welcome to the game data service".data <:+: welcomeText.data.map Char.toLower := by
  refine ⟨rfl, ?_, by decide, by decide⟩
  rw [serve, (dispatch_mounted body Res.fresh).2.2]
  rfl

/-! ## What `src/index.js` itself registers -/

/-- The route table of `src/index.js` takes `POST /games` and `GET /games`
and nothing under `/game-data`, no root route and no `/game/:id`. -/
theorem index_routes (body : Body) (res : Res) :
    app expressMatch ⟨"POST", "/games", [], body⟩ res =
        some (postGames ⟨"POST", "/games", [], body⟩ res)
    ∧ app expressMatch ⟨"GET", "/games", [], body⟩ res =
        some (getGames ⟨"GET", "/games", [], body⟩ res)
    ∧ (app expressMatch ⟨"GET", "/", [], body⟩ res).isNone = true
    ∧ (app expressMatch ⟨"GET", "/game/42", [], body⟩ res).isNone = true
    ∧ (app expressMatch ⟨"POST", "/game-data/games", [], body⟩ res).isNone = true
    ∧ (app expressMatch ⟨"GET", "/game-data/games", [], body⟩ res).isNone = true := by
  have h : matchRoute "POST" "/games" "POST" "/games" = some []
      ∧ matchRoute "POST" "/games" "GET" "/games" = none
      ∧ matchRoute "GET" "/games" "GET" "/games" = some []
      ∧ matchRoute "POST" "/games" "GET" "/" = none
      ∧ matchRoute "GET" "/games" "GET" "/" = none
      ∧ matchRoute "POST" "/games" "GET" "/game/42" = none
      ∧ matchRoute "GET" "/games" "GET" "/game/42" = none
      ∧ matchRoute "POST" "/games" "POST" "/game-data/games" = none
      ∧ matchRoute "GET" "/games" "POST" "/game-data/games" = none
      ∧ matchRoute "POST" "/games" "GET" "/game-data/games" = none
      ∧ matchRoute "GET" "/games" "GET" "/game-data/games" = none := by
    decide
  obtain ⟨h1, h2, h3, h4, h5, h6, h7, h8, h9, h10, h11⟩ := h
  refine ⟨?_, ?_, ?_, ?_, ?_, ?_⟩ <;>
    simp only [app, routes, dispatch, expressMatch, h1, h2, h3, h4, h5, h6, h7, h8, h9, h10,
      h11, Option.isNone]


/-- With the route table under the prefix, Get Game by Id included, a request
still causes at most one statement, whose keyword is `INSERT` or `SELECT`. -/
theorem mounted_at_most_one_statement (m : Matcher) (req : Request) :
    (issued m mountedRoutes req).length ≤ 1
    ∧ ∀ q ∈ issued m mountedRoutes req,
        sqlVerb q.sql = "INSERT" ∨ sqlVerb q.sql = "SELECT" := by
  have hverb : ∀ id : String, sqlVerb (selectByIdSql id) = "SELECT" := by
    intro id
    simp [sqlVerb, selectByIdSql, List.takeWhile]
  unfold issued mountedRoutes
  simp only [dispatch]
  cases m "GET" (routePrefix ++ "/") req with
  | some ps => exact ⟨by simp [getRoot], by simp [getRoot]⟩
  | none =>
    cases m "POST" (routePrefix ++ "/games") req with
    | some ps =>
      refine ⟨by simp [postGames], ?_⟩
      intro q hq
      rw [List.mem_singleton.mp hq]
      exact Or.inl insertSql_reading.1
    | none =>
      cases m "GET" (routePrefix ++ "/games") req with
      | some ps =>
        refine ⟨by simp [getGames], ?_⟩
        intro q hq
        rw [List.mem_singleton.mp hq]
        exact Or.inr selectAllSql_reading.1
      | none =>
        cases m "GET" (routePrefix ++ "/game/:id") req with
        | some ps =>
          refine ⟨by simp [getGameById], ?_⟩
          intro q hq
          rw [List.mem_singleton.mp hq]
          exact Or.inr (hverb _)
        | none => exact ⟨by simp, by simp⟩


end GameDataService

